import Mathlib

/-!
Verification development for the StoryTeller orchestration core
(`src/main.py`, `src/config.py`, `src/interactive_storyteller.py`).

The Python code is shallowly embedded: floats are modelled by exact
rationals, dictionaries by functions into `Option`, wall-clock time by a
rational clock where `time.sleep d` advances the clock by `d`, and the
network by a function from attempt index to response.
-/

/- ## Rate limiter (`RateLimiter`, src/main.py lines 62-101) -/

/-- `min_interval = 60.0 / requests_per_minute` (line 68). -/
def rl_min_interval (limit : ℕ) : ℚ := 60 / (limit : ℚ)

/-- The pruning step of `wait_if_needed` (line 77): keep only the
timestamps of the trailing 60 seconds. -/
def rl_pruned (times : List ℚ) (now : ℚ) : List ℚ :=
  times.filter (fun t => now - t < 60)

/-- The over-limit wait of `wait_if_needed` (lines 80-88): if the pruned
window is at the ceiling, sleep `60 - (now - oldest) + 1` seconds (when
positive) and re-read the clock.  `min(list)` on an empty list raises in
Python; it is modelled with a default that is unreachable when
`1 ≤ limit`. -/
def rl_now2 (limit : ℕ) (times : List ℚ) (now : ℚ) : ℚ :=
  let pruned := rl_pruned times now
  if limit ≤ pruned.length then
    let oldest := (pruned.min?).getD 0
    let wait := 60 - (now - oldest) + 1
    if 0 < wait then now + wait else now
  else now

/-- The minimum-interval sleep of `wait_if_needed` (lines 93-101), which
runs after the new timestamp was already appended: the time at which the
call returns. -/
def rl_ret (limit : ℕ) (times : List ℚ) (now : ℚ) : ℚ :=
  let pruned := rl_pruned times now
  let now2 := rl_now2 limit times now
  if 1 < (pruned ++ [now2]).length then
    let prev := (pruned.getLast?).getD 0
    if now2 - prev < rl_min_interval limit then prev + rl_min_interval limit
    else now2
  else now2

/-- `RateLimiter.wait_if_needed` (lines 72-101).  State is the list of
recorded request timestamps; `now` is `time.time()` at entry.  Returns the
new `request_times` list (prune, then append the post-wait clock) and the
(rational) time at which the call returns, with every `time.sleep d`
modelled as advancing the clock by exactly `d`. -/
def wait_if_needed (limit : ℕ) (times : List ℚ) (now : ℚ) : List ℚ × ℚ :=
  (rl_pruned times now ++ [rl_now2 limit times now], rl_ret limit times now)

/-- A sequence of `wait_if_needed` calls: each list entry is the nonnegative
delay between the previous call returning and the next call being made. -/
def runRL (limit : ℕ) : List ℚ → List ℚ → ℚ → List ℚ × ℚ
  | [], times, now => (times, now)
  | d :: ds, times, now =>
    let r := wait_if_needed limit times (now + d)
    runRL limit ds r.1 r.2

/-- The second most recent entry of a list (Python `lst[-2]`), if any. -/
def secondLast (l : List ℚ) : Option ℚ := l.reverse.tail.head?

/-- The reachable-state invariant of the rate-limiter window: the list
holds at most `limit + 1` timestamps, all of them in the past, and when it
is full its recorded entries include one that is over a minute stale. -/
def RLInv (limit : ℕ) (times : List ℚ) (now : ℚ) : Prop :=
  times.length ≤ limit + 1
  ∧ (∀ t ∈ times, t ≤ now)
  ∧ (times.length = limit + 1 → ∃ o ∈ times, o + 60 ≤ now)

/- ## Usage tracking (`make_api_call`, src/main.py lines 309-374) -/

/-- A pricing-table entry of `MODEL_COSTS` (lines 115-134): either separate
input/output prices per 1M tokens or a flat per-character price. -/
inductive Pricing where
  | tokenTiered (input output : ℚ)
  | perCharacter (price : ℚ)
deriving DecidableEq

/-- `MODEL_COSTS` (lines 115-134). -/
def MODEL_COSTS (model : String) : Option Pricing :=
  if model = "MiniMax-M1" then some (.tokenTiered (0.4 : ℚ) (2.2 : ℚ))
  else if model = "MiniMax-Text-01" then some (.tokenTiered (0.2 : ℚ) (1.1 : ℚ))
  else if model = "speech-02-hd" then some (.perCharacter (0.0001 : ℚ))
  else if model = "speech-02-turbo" then some (.perCharacter (0.00006 : ℚ))
  else none

/-- The incremental `estimated_cost` computed in `make_api_call`
(lines 354-372): input/output pricing per 1M tokens when both keys exist,
per-character pricing otherwise, and a $0.5-per-1M-token fallback for
unknown models. -/
def estimatedCost (model : String) (prompt_tokens completion_tokens total_tokens : ℕ) : ℚ :=
  match MODEL_COSTS model with
  | some (.tokenTiered input output) =>
      ((prompt_tokens : ℚ) / 1000000) * input + ((completion_tokens : ℚ) / 1000000) * output
  | some (.perCharacter price) => (total_tokens : ℚ) * price
  | none => ((total_tokens : ℚ) / 1000000) * (0.5 : ℚ)

/-- `api_usage_stats` (lines 310-317); the per-model dictionaries are
modelled as total functions defaulting to 0, matching `.get(model, 0)`. -/
structure UsageStats where
  total_calls : ℕ
  total_tokens : ℕ
  estimated_cost : ℚ
  calls_by_model : String → ℕ
  tokens_by_model : String → ℕ

def zeroStats : UsageStats := ⟨0, 0, 0, fun _ => 0, fun _ => 0⟩

/-- The usage/cost bookkeeping of `make_api_call` (lines 338-374):
the call counters are always updated; token counters and cost only when
the response carries a `usage` object `(prompt, completion, total)`. -/
def trackUsage (stats : UsageStats) (model : String) (usage : Option (ℕ × ℕ × ℕ)) :
    UsageStats :=
  let s1 : UsageStats :=
    { stats with
      total_calls := stats.total_calls + 1
      calls_by_model := fun m =>
        if m = model then stats.calls_by_model model + 1 else stats.calls_by_model m }
  match usage with
  | none => s1
  | some (prompt_tokens, completion_tokens, total_tokens) =>
    { s1 with
      total_tokens := s1.total_tokens + total_tokens
      tokens_by_model := fun m =>
        if m = model then s1.tokens_by_model model + total_tokens else s1.tokens_by_model m
      estimated_cost :=
        s1.estimated_cost + estimatedCost model prompt_tokens completion_tokens total_tokens }

/- ## Retry-on-throttle (`make_api_call`, lines 319-335) -/

/-- `response.raise_for_status()`: raises for any 4xx/5xx status. -/
def raiseForStatus (status : ℕ) : Except ℕ ℕ :=
  if 400 ≤ status then .error status else .ok status

/-- The outbound-call skeleton of `make_api_call` (lines 319-335): acquire
the rate limiter, send; on a 429 response sleep `retry_delay`, reacquire the
limiter, and send exactly once more; then `raise_for_status`.  `send` maps
the attempt index to the HTTP status of that attempt.  Returns
`((attempts, outcome), limiter state)`. -/
def makeApiCallRetry (limit : ℕ) (retryDelay : ℚ) (rl : List ℚ) (now : ℚ)
    (send : ℕ → ℕ) : (ℕ × Except ℕ ℕ) × (List ℚ × ℚ) :=
  let w1 := wait_if_needed limit rl now
  let s1 := send 1
  if s1 = 429 then
    let w2 := wait_if_needed limit w1.1 (w1.2 + retryDelay)
    ((2, raiseForStatus (send 2)), w2)
  else
    ((1, raiseForStatus s1), w1)

/- ## The orchestrator's method table (class `MiniMaxStoryTeller`) -/

/-- The methods defined on `MiniMaxStoryTeller` in src/main.py
(lines 104-1148); Python attribute lookup on an instance resolves against
this set, and any other attribute access raises `AttributeError`. -/
def miniMaxStoryTellerMethods : List String :=
  ["__init__", "add_character", "generate_story_prompt", "make_api_call",
   "get_usage_statistics", "print_usage_summary", "generate_story",
   "analyze_character_name_with_ai", "fallback_name_analysis",
   "map_character_name_to_voice", "parse_story_into_segments",
   "generate_audio_for_segment", "generate_full_story_audio",
   "play_audio_file", "create_story_script"]

/-- The method that `InteractiveStoryTeller.generate_streaming_audio`
(src/interactive_storyteller.py line 547) and `example_streaming_audio`
(src/example_usage.py line 190) invoke on the orchestrator. -/
def streamingMethodName : String := "generate_full_story_audio_streaming"

/- ## Characters and segments (src/main.py lines 40-59) -/

/-- `Character` dataclass (lines 40-50); float settings as exact rationals. -/
structure Character where
  name : String
  description : String
  voice_id : String
  speed : ℚ
  volume : ℚ
  pitch : ℚ
  emotion : String
deriving DecidableEq, Repr

/-- `StorySegment` dataclass (lines 53-59). -/
structure StorySegment where
  character : Option Character
  text : String
  audio_file : Option String
deriving DecidableEq, Repr

/-- The orchestrator's default `characters["narrator"]` entry
(lines 167-176). -/
def defaultNarrator : Character :=
  ⟨"Narrator",
   "A wise storyteller with a warm, engaging voice who brings the world to life with vivid descriptions",
   "English_expressive_narrator", 1, 1, 0, "calm"⟩

/- ## String helpers mirroring Python primitives
(implemented over `List Char` so that they evaluate by kernel reduction;
the source only manipulates ASCII text). -/

/-- Python `s.lower()`. -/
def pyLower (s : String) : String := ⟨s.data.map Char.toLower⟩

/-- Python `s.strip()` (the source strips ASCII whitespace). -/
def pyStrip (s : String) : String :=
  ⟨((s.data.dropWhile Char.isWhitespace).reverse.dropWhile Char.isWhitespace).reverse⟩

/-- Python `s.split(sep)` for a one-character separator. -/
def splitChar (sep : Char) : List Char → List (List Char)
  | [] => [[]]
  | c :: rest =>
    let r := splitChar sep rest
    if c = sep then [] :: r
    else
      match r with
      | h :: t => (c :: h) :: t
      | [] => [[c]]

/-- Python `s.split(sep)` for a one-character separator, on strings. -/
def pySplit (sep : Char) (s : String) : List String :=
  (splitChar sep s.data).map (fun l => ⟨l⟩)

/-- Python `s.split(sep, 1)[0]` for a one-character separator. -/
def pySplitHead (sep : Char) (s : String) : String :=
  ⟨s.data.takeWhile (fun c => c ≠ sep)⟩

/-- Python `s.split(sep, 1)[1]` for a one-character separator that occurs
in `s` (everything after the first occurrence). -/
def pySplitRest (sep : Char) (s : String) : String :=
  ⟨(s.data.dropWhile (fun c => c ≠ sep)).tail⟩

/-- Python `c in s` for a single character. -/
def pyContainsChar (s : String) (c : Char) : Bool := s.data.contains c

/-- Python `pat in s` (substring containment). -/
def strContains (s pat : String) : Bool :=
  s.data.tails.any (fun t => pat.data.isPrefixOf t)

/-- Python `s.endswith(tuple(pats))`. -/
def strEndsWithAny (s : String) (pats : List String) : Bool :=
  pats.any (fun p => p.data.isSuffixOf s.data)

/-- Python `any(pat in s for pat in pats)`. -/
def containsAny (s : String) (pats : List String) : Bool :=
  pats.any (fun p => strContains s p)

/- ## Name analysis (src/main.py lines 638-765) -/

/-- The structured classification produced by `analyze_character_name_with_ai`
or `fallback_name_analysis`. -/
structure NameAnalysis where
  gender : String
  age_group : String
  personality_trait : String
  voice_type : String
  confidence : ℚ
deriving DecidableEq, Repr

/-- `fallback_name_analysis` (lines 726-765): pattern-based analysis used
when the AI classifier is unavailable or unparsable. -/
def fallback_name_analysis (char_name : String) : NameAnalysis :=
  let lower := pyLower char_name
  let base : NameAnalysis := ⟨"unknown", "adult", "neutral", "neutral", (0.3 : ℚ)⟩
  let a1 :=
    if containsAny lower ["a", "e", "i", "o", "u"] then
      if strEndsWithAny lower ["a", "e", "i"] then
        { base with gender := "female", voice_type := "feminine" }
      else if strEndsWithAny lower ["o", "u", "n", "r"] then
        { base with gender := "male", voice_type := "masculine" }
      else base
    else base
  if containsAny lower ["shadow", "dark", "grim", "vex", "mal"] then
    { a1 with personality_trait := "villainous" }
  else if containsAny lower ["light", "bright", "sun", "star"] then
    { a1 with personality_trait := "heroic" }
  else if containsAny lower ["wise", "sage", "elder", "merlin"] then
    { a1 with personality_trait := "wise", voice_type := "wise" }
  else a1

/- ## Voice resolution (src/main.py lines 767-904) -/

/-- The orchestrator state used by voice resolution: `name_voice_cache`
(keyed by the name exactly as presented, line 772/899),
`voice_selection_index` (per category, lines 876-885), and
`name_analysis_cache` (keyed by the lowercased name, lines 643-648/707).
Python dictionaries are modelled as functions into `Option`. -/
structure ResolverState where
  name_voice_cache : String → Option Character
  voice_selection_index : String → Option ℕ
  name_analysis_cache : String → Option NameAnalysis

def initState : ResolverState := ⟨fun _ => none, fun _ => none, fun _ => none⟩

/-- `analyze_character_name_with_ai` (lines 638-724), parametrised by the
outcome `ai` of the remote call: `some a` is a successful, validated JSON
parse (which is cached under the lowercased name), `none` is any transport
failure, missing choices, or JSON decode failure, which falls back to
`fallback_name_analysis` without caching (lines 714-724). -/
def analyze_character_name_with_ai (ai : String → Option NameAnalysis)
    (s : ResolverState) (char_name : String) : NameAnalysis × ResolverState :=
  match s.name_analysis_cache (pyLower char_name) with
  | some a => (a, s)
  | none =>
    match ai char_name with
    | some a =>
      (a, { s with name_analysis_cache := fun k =>
              if k = pyLower char_name then some a else s.name_analysis_cache k })
    | none => (fallback_name_analysis char_name, s)

def narratorVoices : List String :=
  ["English_expressive_narrator", "English_CaptivatingStoryteller", "English_WiseScholar"]

def femaleVoices : List String :=
  ["English_radiant_girl", "English_compelling_lady1", "English_captivating_female1",
   "English_Upbeat_Woman", "English_CalmWoman", "English_Graceful_Lady",
   "English_PlayfulGirl", "English_LovelyGirl", "English_Wiselady",
   "English_SentimentalLady", "English_Soft-spokenGirl"]

def maleVoices : List String :=
  ["English_magnetic_voiced_man", "English_Aussie_Bloke", "English_Trustworth_Man",
   "English_Gentle-voiced_man", "English_Diligent_Man", "English_ReservedYoungMan",
   "English_ManWithDeepVoice", "English_FriendlyPerson", "English_Debator",
   "English_Steadymentor", "English_Deep-VoicedGentleman", "English_DecentYoungMan",
   "English_PassionateWarrior"]

def villainVoices : List String :=
  ["English_ManWithDeepVoice", "English_Deep-VoicedGentleman", "English_ImposingManner"]

def childVoices : List String :=
  ["English_radiant_girl", "English_PlayfulGirl", "English_LovelyGirl",
   "English_Soft-spokenGirl"]

def elderVoices : List String :=
  ["English_WiseScholar", "English_Wiselady", "English_MaturePartner",
   "English_Steadymentor"]

/-- `english_voices.get(voice_category, english_voices["male"])`
(lines 784-841, 873). -/
def englishVoicesPool (cat : String) : List String :=
  if cat = "narrator" then narratorVoices
  else if cat = "female" then femaleVoices
  else if cat = "male" then maleVoices
  else if cat = "villain" then villainVoices
  else if cat = "child" then childVoices
  else if cat = "elder" then elderVoices
  else maleVoices

/-- Voice category selection from the analysis (lines 843-870): base
category from gender and age group (default "male"), then personality
overrides to "villain" or "elder". -/
def voiceCategoryOf (a : NameAnalysis) : String :=
  let base :=
    if a.gender = "female" then
      if a.age_group = "child" then "child"
      else if a.age_group = "elder" then "elder"
      else "female"
    else if a.gender = "male" then
      if a.age_group = "child" then "child"
      else if a.age_group = "elder" then "elder"
      else "male"
    else "male"
  if a.personality_trait = "villainous" ∨ a.personality_trait = "sinister"
      ∨ a.personality_trait = "evil" then "villain"
  else if a.personality_trait = "wise" ∨ a.personality_trait = "scholarly"
      ∨ a.personality_trait = "mentor" then "elder"
  else base

/-- `map_character_name_to_voice` (lines 767-904): exact-name cache check,
name analysis, category selection, per-category round-robin voice pick
(index advanced by one), `Character` construction with default
speed/volume/pitch/emotion, and caching under the original name. -/
def map_character_name_to_voice (ai : String → Option NameAnalysis)
    (s : ResolverState) (char_name : String) : Character × ResolverState :=
  match s.name_voice_cache char_name with
  | some cached => (cached, s)
  | none =>
    let r := analyze_character_name_with_ai ai s char_name
    let analysis := r.1
    let s1 := r.2
    let voice_category := voiceCategoryOf analysis
    let available_voices := englishVoicesPool voice_category
    let idx := (s1.voice_selection_index voice_category).getD 0
    let selected_voice := available_voices.getD (idx % available_voices.length) ""
    let character : Character :=
      ⟨char_name,
       "AI-generated character with " ++ analysis.gender ++ " voice, "
         ++ analysis.age_group ++ " age group, " ++ analysis.personality_trait
         ++ " personality",
       selected_voice, 1, 1, 0, "neutral"⟩
    let s2 : ResolverState :=
      { s1 with
        voice_selection_index := fun k =>
          if k = voice_category then some (idx + 1) else s1.voice_selection_index k
        name_voice_cache := fun k =>
          if k = char_name then some character else s1.name_voice_cache k }
    (character, s2)

/-- The AI-unavailable mode: every remote classification attempt fails and
resolution uses `fallback_name_analysis` (lines 714-724). -/
def heurAI : String → Option NameAnalysis := fun _ => none

/-- Sequential resolution of a list of names through
`map_character_name_to_voice`, threading the resolver state. -/
def resolveAll (ai : String → Option NameAnalysis) :
    List String → ResolverState → List Character × ResolverState
  | [], s => ([], s)
  | n :: ns, s =>
    let r := map_character_name_to_voice ai s n
    let rest := resolveAll ai ns r.2
    (r.1 :: rest.1, rest.2)

/-- The voice identifiers assigned to a list of names resolved in order
from a fresh orchestrator session in AI-unavailable mode. -/
def assignedVoiceIds (names : List String) : List String :=
  ((resolveAll heurAI names initState).1).map Character.voice_id

/- ## Story parsing (src/main.py lines 906-967) -/

/-- The text content a line contributes: for a line containing a colon, the
part after the first colon, stripped; otherwise the whole (stripped) line. -/
def lineContent (line : String) : String :=
  if pyContainsChar line ':' then pyStrip (pySplitRest ':' line)
  else line

/-- The per-line loop of `parse_story_into_segments` (lines 915-958):
strip the line, skip it if blank; if it contains a colon, split at the
first colon, strip a parenthetical suffix from the speaker label, resolve
the label to a voice, and emit a dialogue segment; otherwise emit the line
as narration attributed to the default narrator. -/
def parseLines (ai : String → Option NameAnalysis) :
    List String → ResolverState → List StorySegment × ResolverState
  | [], s => ([], s)
  | l :: ls, s =>
    let line := pyStrip l
    if line = "" then parseLines ai ls s
    else if pyContainsChar line ':' then
      let char_name := pyStrip (pySplitHead '(' (pyStrip (pySplitHead ':' line)))
      let dialogue := pyStrip (pySplitRest ':' line)
      let r := map_character_name_to_voice ai s char_name
      let rest := parseLines ai ls r.2
      (⟨some r.1, dialogue, none⟩ :: rest.1, rest.2)
    else
      let rest := parseLines ai ls s
      (⟨some defaultNarrator, line, none⟩ :: rest.1, rest.2)

/-- `parse_story_into_segments` (lines 906-967): split on newlines and
process each line in order. -/
def parse_story_into_segments (ai : String → Option NameAnalysis)
    (s : ResolverState) (story : String) : List StorySegment × ResolverState :=
  parseLines ai (pySplit '\n' story) s

/-- A response sequence whose first attempt is a throttle and whose second
attempt is a non-throttle failure. -/
def throttleThenFailSend : ℕ → ℕ := fun n => if n = 1 then 429 else 503

/- ## Story generation response handling (`generate_story`,
src/main.py lines 509-636) -/

/-- Python `s.find(pat)`: index of the first occurrence, `-1` if absent
(list form). -/
def listFind (pat : List Char) : List Char → Option ℕ
  | [] => if pat.isPrefixOf ([] : List Char) then some 0 else none
  | c :: rest =>
    if pat.isPrefixOf (c :: rest) then some 0
    else (listFind pat rest).map (fun i => i + 1)

/-- Python `s.find(pat)`. -/
def strFind (s pat : String) : Int :=
  match listFind pat.data s.data with
  | some n => (n : Int)
  | none => -1

/-- Python `s[i:]` for a nonnegative index. -/
def strDropFrom (s : String) (i : ℕ) : String := ⟨s.data.drop i⟩

/-- The `message` object of a chat-completion choice: `content` and
`reasoning_content` keys, each possibly absent. -/
structure GenMessage where
  content : Option String
  reasoning_content : Option String
deriving DecidableEq

/-- One entry of the `choices` array: a possibly absent `message` and
`choice.get("finish_reason", "")`. -/
structure GenChoice where
  message : Option GenMessage
  finish_reason : Option String
deriving DecidableEq

/-- A chat-completion response; `none` models a response with no
`choices` key at all. -/
structure GenResponse where
  choices : Option (List GenChoice)
deriving DecidableEq

/-- The exception message raised for the token-limit condition
(lines 609-611). -/
def tokenLimitMsg : String :=
  "Story generation hit token limit - try reducing story length or simplifying prompt"

/-- The `reasoning_content` fallback of `generate_story` (lines 573-603):
if the reasoning text contains a NARRATOR:/HERO: marker, extract from the
maximum of the five marker positions onward. -/
def extract_from_reasoning (reasoning : String) : Option String :=
  if strContains reasoning "NARRATOR:" ∨ strContains reasoning "HERO:" then
    let story_start :=
      max (max (max (max (strFind reasoning "NARRATOR:") (strFind reasoning "HERO:"))
        (strFind reasoning "VILLAIN:")) (strFind reasoning "FRIEND:"))
        (strFind reasoning "WIZARD:")
    if story_start ≠ -1 then some (pyStrip (strDropFrom reasoning story_start.toNat))
    else none
  else none

/-- The response-validation body of `generate_story` (lines 540-625): the
`try` block's distinct raised exception messages are modelled as `.error`
values, a successful extraction as `.ok`. -/
def story_from_response (r : GenResponse) : Except String String :=
  match r.choices with
  | some (choice :: _) =>
    (match choice.message with
     | some message =>
       let finish_reason := choice.finish_reason.getD ""
       (match message.content with
        | some story =>
          if pyStrip story ≠ "" then .ok story
          else
            (match message.reasoning_content with
             | some reasoning =>
               (match extract_from_reasoning reasoning with
                | some extracted => .ok extracted
                | none =>
                  if finish_reason = "length" then .error tokenLimitMsg
                  else .error "Story content is empty")
             | none =>
               if finish_reason = "length" then .error tokenLimitMsg
               else .error "Story content is empty")
        | none => .error "No content in message")
     | none => .error "No message in choice")
  | _ => .error "No story generated"

/-- What `generate_story` actually returns to its caller: the surrounding
`except` handlers (lines 627-636) catch every exception and return `None`,
collapsing all failure modes. -/
def generate_story_result (r : GenResponse) : Option String :=
  (story_from_response r).toOption

/- ## Per-segment audio synthesis (`generate_audio_for_segment`,
src/main.py lines 969-1081) -/

/-- Hexadecimal digit value. -/
def hexVal (c : Char) : Option ℕ :=
  if '0' ≤ c ∧ c ≤ '9' then some (c.toNat - '0'.toNat)
  else if 'a' ≤ c ∧ c ≤ 'f' then some (c.toNat - 'a'.toNat + 10)
  else if 'A' ≤ c ∧ c ≤ 'F' then some (c.toNat - 'A'.toNat + 10)
  else none

/-- `bytes.fromhex` on a list of characters: pairs of hex digits; any
odd-length tail or non-hex digit fails (`ValueError`). -/
def hexPairs : List Char → Option (List ℕ)
  | [] => some []
  | [_] => none
  | a :: b :: rest =>
    match hexVal a, hexVal b, hexPairs rest with
    | some x, some y, some tail => some ((16 * x + y) :: tail)
    | _, _, _ => none

/-- Python `bytes.fromhex(s)` (ASCII spaces between pairs are skipped). -/
def hexDecode (s : String) : Option (List ℕ) :=
  hexPairs (s.data.filter (fun c => c ≠ ' '))

/-- A text-to-speech HTTP response: its status code and, when present, the
hex-encoded `result["data"]["audio"]` payload (`none` models a JSON body
with no `data`/`audio` keys). -/
structure TtsResponse where
  status : ℕ
  audioHex : Option String
deriving DecidableEq

/-- The TTS retry skeleton of `generate_audio_for_segment`
(lines 1010-1035): acquire the TTS rate limiter, send; on a 429 sleep
`retry_delay`, reacquire, and send exactly once more.  Returns the
response used, the number of attempts, and the limiter state. -/
def tts_retry (limit : ℕ) (retryDelay : ℚ) (rl : List ℚ) (now : ℚ)
    (send : ℕ → TtsResponse) : TtsResponse × ℕ × (List ℚ × ℚ) :=
  let w1 := wait_if_needed limit rl now
  let r1 := send 1
  if r1.status = 429 then
    let w2 := wait_if_needed limit w1.1 (w1.2 + retryDelay)
    (send 2, 2, w2)
  else (r1, 1, w1)

/-- `generate_audio_for_segment` (lines 969-1081) for a segment whose
character is `ch` and whose text is irrelevant to the outcome modelled
here: rate-limited, retried once on throttle, then `raise_for_status`;
on success the hex audio payload is decoded and persisted under
`{output_dir}/{char.name}_{timestamp}.mp3`; every failure (HTTP error,
missing audio data, hex decode error) yields `None`.  The function reads
and writes no usage statistics, so the ledger is returned unchanged. -/
def generate_audio_for_segment (ch : Character) (output_dir : String)
    (timestamp : ℕ) (stats : UsageStats) (limit : ℕ) (retryDelay : ℚ)
    (rl : List ℚ) (now : ℚ) (send : ℕ → TtsResponse) :
    Option String × UsageStats × (List ℚ × ℚ) :=
  let filename := output_dir ++ "/" ++ ch.name ++ "_" ++ toString timestamp ++ ".mp3"
  let r := tts_retry limit retryDelay rl now send
  let artifact : Option String :=
    if 400 ≤ r.1.status then none
    else
      match r.1.audioHex with
      | some audio_hex =>
        (match hexDecode audio_hex with
         | some _ => some filename
         | none => none)
      | none => none
  (artifact, stats, r.2.2)

/-- A successful TTS exchange: status 200 with a decodable hex payload. -/
def ttsOkSend : ℕ → TtsResponse := fun _ => ⟨200, some "00ff"⟩

/-- A TTS response sequence whose first attempt is a throttle and whose
second attempt is a non-throttle failure. -/
def ttsThrottleThenFailSend : ℕ → TtsResponse :=
  fun n => if n = 1 then ⟨429, none⟩ else ⟨503, none⟩

/-- Empty content with `finish_reason == "length"` (token-limit case). -/
def respTokenLimit : GenResponse :=
  ⟨some [⟨some ⟨some "", none⟩, some "length"⟩]⟩

/-- Empty content with a non-length finish reason (generic empty case). -/
def respEmpty : GenResponse :=
  ⟨some [⟨some ⟨some "", none⟩, some "stop"⟩]⟩

/-- A malformed response with no `choices` entry. -/
def respNoChoices : GenResponse := ⟨none⟩

/- ## Theorems -/

/-- Claim C1 (corrected): at the spec's concrete input the recorded
incremental cost is 0.0015 dollars, not the 0.0000026 the spec computes. -/
theorem C1_counterexample :
    estimatedCost "MiniMax-M1" 1000 500 1500 ≠ (0.0000026 : ℚ)
    ∧ (trackUsage zeroStats "MiniMax-M1" (some (1000, 500, 1500))).estimated_cost
        ≠ (0.0000026 : ℚ) := by
  constructor <;> · simp only [trackUsage, estimatedCost, MODEL_COSTS, zeroStats]; norm_num

/-- Claim C1 (amended): for a call on "MiniMax-M1"
(input $0.4/1M, output $2.2/1M) with prompt_tokens = 1000 and
completion_tokens = 500, the incremental cost added to the ledger is
`1000/1e6*0.4 + 500/1e6*2.2 = 0.0004 + 0.0011 = 0.0015` dollars,
each additive term independently checkable. -/
theorem C1_cost_amended :
    estimatedCost "MiniMax-M1" 1000 500 1500
      = (1000 : ℚ) / 1000000 * (0.4 : ℚ) + (500 : ℚ) / 1000000 * (2.2 : ℚ)
    ∧ (1000 : ℚ) / 1000000 * (0.4 : ℚ) = (0.0004 : ℚ)
    ∧ (500 : ℚ) / 1000000 * (2.2 : ℚ) = (0.0011 : ℚ)
    ∧ estimatedCost "MiniMax-M1" 1000 500 1500 = (0.0015 : ℚ)
    ∧ ∀ s : UsageStats,
        (trackUsage s "MiniMax-M1" (some (1000, 500, 1500))).estimated_cost
          = s.estimated_cost + (0.0015 : ℚ) := by
  refine ⟨by simp only [estimatedCost, MODEL_COSTS]; norm_num, by norm_num, by norm_num,
    by simp only [estimatedCost, MODEL_COSTS]; norm_num, fun s => ?_⟩
  simp only [trackUsage, estimatedCost, MODEL_COSTS]
  norm_num

/-- Claim C3 (confirmed): the retry policy makes at most 2 attempts for any
response sequence, on both the generation (chat) and the synthesis (TTS)
call paths; a throttle (429) first attempt followed by a non-throttle
failing retry yields exactly 2 attempts and a propagated failure (for
synthesis: the second response is final and the segment's audio generation
returns no artifact); a non-throttle failure on the first attempt
propagates immediately after exactly 1 attempt. -/
theorem C3_retry (limit : ℕ) (retryDelay : ℚ) (rl : List ℚ) (now : ℚ)
    (send : ℕ → ℕ) (tsend : ℕ → TtsResponse) :
    ((makeApiCallRetry limit retryDelay rl now send).1).1 ≤ 2
    ∧ (send 1 = 429 → 400 ≤ send 2 →
        (makeApiCallRetry limit retryDelay rl now send).1
          = (2, Except.error (send 2)))
    ∧ (send 1 ≠ 429 → 400 ≤ send 1 →
        (makeApiCallRetry limit retryDelay rl now send).1
          = (1, Except.error (send 1)))
    ∧ (tts_retry limit retryDelay rl now tsend).2.1 ≤ 2
    ∧ ((tsend 1).status = 429 →
        (tts_retry limit retryDelay rl now tsend).2.1 = 2
        ∧ (tts_retry limit retryDelay rl now tsend).1 = tsend 2)
    ∧ ((tsend 1).status ≠ 429 →
        (tts_retry limit retryDelay rl now tsend).2.1 = 1
        ∧ (tts_retry limit retryDelay rl now tsend).1 = tsend 1)
    ∧ ∀ (ch : Character) (output_dir : String) (timestamp : ℕ)
        (stats : UsageStats),
        ((tsend 1).status = 429 → 400 ≤ (tsend 2).status →
          (generate_audio_for_segment ch output_dir timestamp stats limit
            retryDelay rl now tsend).1 = none)
        ∧ ((tsend 1).status ≠ 429 → 400 ≤ (tsend 1).status →
          (generate_audio_for_segment ch output_dir timestamp stats limit
            retryDelay rl now tsend).1 = none) := by
  refine ⟨?_, fun h1 h2 => ?_, fun h1 h2 => ?_, ?_, fun h1 => ?_, fun h1 => ?_,
    fun ch output_dir timestamp stats => ⟨fun h1 h2 => ?_, fun h1 h2 => ?_⟩⟩
  · by_cases h : send 1 = 429 <;> simp [makeApiCallRetry, h]
  · simp [makeApiCallRetry, h1, raiseForStatus, h2]
  · simp [makeApiCallRetry, h1, raiseForStatus, h2]
  · by_cases h : (tsend 1).status = 429 <;> simp [tts_retry, h]
  · simp [tts_retry, h1]
  · simp [tts_retry, h1]
  · simp [generate_audio_for_segment, tts_retry, h1, h2]
  · simp [generate_audio_for_segment, tts_retry, h1, h2]

/-- Helper: reading back a list by index. -/
theorem map_getD_range (l : List String) :
    (List.range l.length).map (fun i => l.getD i "") = l := by
  induction l with
  | nil => rfl
  | cons a t ih =>
    rw [List.length_cons, List.range_succ_eq_map, List.map_cons, List.map_map]
    simp only [List.getD_cons_zero, Function.comp_def, List.getD_cons_succ]
    rw [ih]

/-- Helper: sequentially resolving fresh names that all classify into
category `c` walks the category's pool cyclically starting from the current
per-category index. -/
theorem resolveAll_voice_ids (c : String) :
    ∀ (names : List String) (s : ResolverState) (k : ℕ),
      names.Nodup →
      (∀ n ∈ names, voiceCategoryOf (fallback_name_analysis n) = c) →
      (∀ n ∈ names, s.name_voice_cache n = none) →
      (∀ m : String, s.name_analysis_cache m = none) →
      (s.voice_selection_index c).getD 0 = k →
      ((resolveAll heurAI names s).1).map Character.voice_id
        = (List.range names.length).map
            (fun i =>
              (englishVoicesPool c).getD ((k + i) % (englishVoicesPool c).length) "") := by
  intro names
  induction names with
  | nil => intro s k _ _ _ _ _; rfl
  | cons n ns ih =>
    intro s k hnd hc hcache hana hk
    have hn : s.name_voice_cache n = none := hcache n (List.mem_cons_self n ns)
    have hcat : voiceCategoryOf (fallback_name_analysis n) = c :=
      hc n (List.mem_cons_self n ns)
    have hnotmem : n ∉ ns := (List.nodup_cons.mp hnd).1
    simp only [resolveAll, map_character_name_to_voice,
      analyze_character_name_with_ai, hn, hana (pyLower n), heurAI, hcat, hk]
    rw [List.map_cons, List.length_cons, List.range_succ_eq_map, List.map_cons,
      List.map_map, List.cons_eq_cons]
    constructor
    · simp
    · refine Eq.trans (ih _ (k + 1) ?_ ?_ ?_ ?_ ?_) ?_
      · exact (List.nodup_cons.mp hnd).2
      · exact fun m hm => hc m (List.mem_cons_of_mem n hm)
      · intro m hm
        show (if m = n then _ else s.name_voice_cache m) = none
        rw [if_neg (fun he : m = n => hnotmem (he ▸ hm))]
        exact hcache m (List.mem_cons_of_mem n hm)
      · exact hana
      · show ((if c = c then some (k + 1) else s.voice_selection_index c)).getD 0 = k + 1
        rw [if_pos rfl]
        rfl
      · apply List.map_congr_left
        intro i _
        simp only [Function.comp_apply]
        congr 2
        omega

/-- Witness for C3: with a 429 first response and a 503 retry response, the
chat policy performs exactly 2 attempts and propagates the 503 failure,
and the synthesis policy likewise uses the second response as final and
produces no artifact. -/
theorem C3_retry_witness :
    ((makeApiCallRetry 100 60 [] 0 throttleThenFailSend).1).1 ≤ 2
    ∧ (makeApiCallRetry 100 60 [] 0 throttleThenFailSend).1
        = (2, Except.error 503)
    ∧ (tts_retry 50 60 [] 0 ttsThrottleThenFailSend).2.1 = 2
    ∧ (tts_retry 50 60 [] 0 ttsThrottleThenFailSend).1
        = ttsThrottleThenFailSend 2
    ∧ (generate_audio_for_segment defaultNarrator "audio_output" 0 zeroStats
        50 60 [] 0 ttsThrottleThenFailSend).1 = none := by
  have h := C3_retry 100 60 [] 0 throttleThenFailSend ttsThrottleThenFailSend
  have h' := C3_retry 50 60 [] 0 throttleThenFailSend ttsThrottleThenFailSend
  refine ⟨h.1, h.2.1 (by decide) (by decide), (h'.2.2.2.2.1 (by decide)).1,
    (h'.2.2.2.2.1 (by decide)).2, ?_⟩
  exact (h'.2.2.2.2.2.2 defaultNarrator "audio_output" 0 zeroStats).1
    (by decide) (by decide)

/-- Claim C9 (code bug): the orchestrator defines no
`generate_full_story_audio_streaming` method, although its callers invoke
one; only the per-segment `generate_full_story_audio` path exists, so the
streaming invocation raises `AttributeError`. -/
theorem C9_missing_streaming_method :
    streamingMethodName ∉ miniMaxStoryTellerMethods
    ∧ "generate_full_story_audio" ∈ miniMaxStoryTellerMethods := by
  decide

/-- Helper: the texts of the parsed segments are exactly the per-line
contents of the non-blank stripped lines, in input order. -/
theorem parseLines_texts (ai : String → Option NameAnalysis) (ls : List String) :
    ∀ s : ResolverState,
      ((parseLines ai ls s).1).map StorySegment.text
        = (ls.map pyStrip).filterMap
            (fun l => if l = "" then none else some (lineContent l)) := by
  induction ls with
  | nil => intro s; rfl
  | cons l ls ih =>
    intro s
    by_cases h1 : pyStrip l = ""
    · simp [parseLines, h1, ih]
    · by_cases h2 : pyContainsChar (pyStrip l) ':'
      · simp [parseLines, h1, h2, lineContent, ih]
      · simp [parseLines, h1, h2, lineContent, ih]

/-- Helper: every parsed segment carries a (non-`None`) character. -/
theorem parseLines_all_some (ai : String → Option NameAnalysis) (ls : List String) :
    ∀ s : ResolverState,
      ((parseLines ai ls s).1).all (fun g => g.character.isSome) = true := by
  induction ls with
  | nil => intro s; rfl
  | cons l ls ih =>
    intro s
    by_cases h1 : pyStrip l = ""
    · simp [parseLines, h1, ih]
    · by_cases h2 : pyContainsChar (pyStrip l) ':' <;> simp [parseLines, h1, h2, ih]

/-- Claim C2 (corrected): the voice cache is keyed by the name exactly as
presented, not case-insensitively.  Resolving "Kael" and then "KAEL"
(names equal after lowercasing) in a fresh session re-resolves and returns
different VoiceProfile values — the round-robin index has advanced, so the
two profiles carry different voice identifiers. -/
theorem C2_counterexample :
    pyLower "Kael" = pyLower "KAEL"
    ∧ (map_character_name_to_voice heurAI initState "Kael").1.voice_id
        = "English_magnetic_voiced_man"
    ∧ (map_character_name_to_voice heurAI
        (map_character_name_to_voice heurAI initState "Kael").2 "KAEL").1.voice_id
        = "English_Aussie_Bloke"
    ∧ (map_character_name_to_voice heurAI
        (map_character_name_to_voice heurAI initState "Kael").2 "KAEL").1
        ≠ (map_character_name_to_voice heurAI initState "Kael").1 := by
  decide

/-- Claim C2 (amended): resolutions are idempotent for the exactly equal
(case-sensitive) name: once a name is resolved, resolving the same string
again is a cache hit that returns the identical VoiceProfile value and
leaves the resolver state unchanged — no re-resolution, no drift. -/
theorem C2_cache_amended (ai : String → Option NameAnalysis)
    (s : ResolverState) (n : String) :
    (map_character_name_to_voice ai (map_character_name_to_voice ai s n).2 n).1
      = (map_character_name_to_voice ai s n).1
    ∧ (map_character_name_to_voice ai (map_character_name_to_voice ai s n).2 n).2
      = (map_character_name_to_voice ai s n).2 := by
  cases h : s.name_voice_cache n with
  | some cached => simp [map_character_name_to_voice, h]
  | none => simp [map_character_name_to_voice, h]

/-- Claim C4 (confirmed): the example input parses to exactly 3 segments,
(Narrator, "The sun rose."), (Kael, "I must go!"), (Narrator, "just text"),
the third attributed to the default Narrator because its line has no colon;
and in general the parsed texts are exactly the contents of the non-blank
lines in input order (blank lines produce no segment). -/
theorem C4_segmentation :
    ((parse_story_into_segments heurAI initState
        "Narrator: The sun rose.\nKael: I must go!\njust text").1).map
        (fun g => ((g.character.map Character.name).getD "", g.text))
      = [("Narrator", "The sun rose."), ("Kael", "I must go!"),
         ("Narrator", "just text")]
    ∧ (parse_story_into_segments heurAI initState
        "Narrator: The sun rose.\nKael: I must go!\njust text").1.getD 2
        ⟨none, "", none⟩
      = ⟨some defaultNarrator, "just text", none⟩
    ∧ ∀ (ai : String → Option NameAnalysis) (s : ResolverState) (story : String),
        ((parse_story_into_segments ai s story).1).map StorySegment.text
          = ((pySplit '\n' story).map pyStrip).filterMap
              (fun l => if l = "" then none else some (lineContent l)) :=
  ⟨by decide, by decide,
   fun ai s story => parseLines_texts ai (pySplit '\n' story) s⟩

/-- Claim C7 (confirmed): with pool size P, resolving N ≥ P distinct new
names that all classify into category `c` assigns the first P names exactly
the P pool identifiers in pool order (each identifier once before any
repeat), the pool being duplicate-free; the index advances only on
new-name resolutions (cache hits leave the state unchanged, see the cache
theorem). -/
theorem C7_round_robin (c : String) (names : List String)
    (hnd : names.Nodup)
    (hc : ∀ n ∈ names, voiceCategoryOf (fallback_name_analysis n) = c)
    (hP : (englishVoicesPool c).length ≤ names.length) :
    (assignedVoiceIds names).take (englishVoicesPool c).length
        = englishVoicesPool c
    ∧ (englishVoicesPool c).Nodup := by
  constructor
  · have h := resolveAll_voice_ids c names initState 0 hnd hc
      (fun _ _ => rfl) (fun _ => rfl) rfl
    rw [assignedVoiceIds, h, ← List.map_take, List.take_range,
      Nat.min_eq_left hP]
    rw [List.map_congr_left (fun i (hi : i ∈ List.range (englishVoicesPool c).length) =>
      by rw [Nat.zero_add, Nat.mod_eq_of_lt (List.mem_range.mp hi)])]
    exact map_getD_range (englishVoicesPool c)
  · unfold englishVoicesPool
    split_ifs <;> decide

/-- Witness for C7: the three fresh names "vex", "vexx", "vexy" all
classify as villainous; resolving them covers the villain pool (size 3)
exactly once, in pool order. -/
theorem C7_round_robin_witness :
    (assignedVoiceIds ["vex", "vexx", "vexy"]).take
        (englishVoicesPool "villain").length = englishVoicesPool "villain"
    ∧ (englishVoicesPool "villain").Nodup :=
  C7_round_robin "villain" ["vex", "vexx", "vexy"] (by decide) (by decide)
    (by decide)

/-- Claim C10 (confirmed): although `StorySegment.character` is declared
optional, every segment produced by the parser has a present character —
colon lines get a resolved voice profile and colon-free lines get the
default narrator — so per-segment audio generation never sees a missing
speaker. -/
theorem C10_character_always_some (ai : String → Option NameAnalysis)
    (s : ResolverState) (story : String) :
    ((parse_story_into_segments ai s story).1).all
      (fun g => g.character.isSome) = true :=
  parseLines_all_some ai (pySplit '\n' story) s

/-- Claim C6 (corrected): the three failure conditions are not
distinguishable by generate_story's caller — the empty-content/length
response, the generic empty response, and the missing-choices response all
make generate_story return the same `None`. -/
theorem C6_counterexample :
    generate_story_result respTokenLimit = none
    ∧ generate_story_result respEmpty = none
    ∧ generate_story_result respNoChoices = none
    ∧ generate_story_result respTokenLimit = generate_story_result respNoChoices
    ∧ generate_story_result respTokenLimit = generate_story_result respEmpty := by
  decide

/-- Claim C6 (amended): inside generate_story the three conditions do raise
distinct, named exceptions — a token-limit message for empty content with
finish_reason "length", distinct from the generic empty-content message and
from the missing-choices message — but the function's own exception
handlers catch them all and return None, so the failure surfaced to the
caller is an undifferentiated null, not a caller-distinguishable structured
failure. -/
theorem C6_failure_amended :
    story_from_response respTokenLimit = .error tokenLimitMsg
    ∧ story_from_response respEmpty = .error "Story content is empty"
    ∧ story_from_response respNoChoices = .error "No story generated"
    ∧ tokenLimitMsg ≠ "Story content is empty"
    ∧ tokenLimitMsg ≠ "No story generated"
    ∧ ("Story content is empty" : String) ≠ "No story generated"
    ∧ generate_story_result respTokenLimit = none :=
  ⟨rfl, rfl, rfl, by decide, by decide, by decide, by decide⟩

/-- Claim C8 (corrected): a successful synthesis call does not pass through
the usage-tracking layer — after a successful TTS exchange that produces an
audio artifact, the per-model call counter, the unit counters and the
accumulated cost of the ledger are all still zero. -/
theorem C8_counterexample :
    (generate_audio_for_segment defaultNarrator "audio_output" 0 zeroStats
        50 60 [] 0 ttsOkSend).1 = some "audio_output/Narrator_0.mp3"
    ∧ (generate_audio_for_segment defaultNarrator "audio_output" 0 zeroStats
        50 60 [] 0 ttsOkSend).2.1.total_calls = 0
    ∧ (generate_audio_for_segment defaultNarrator "audio_output" 0 zeroStats
        50 60 [] 0 ttsOkSend).2.1.calls_by_model "speech-02-hd" = 0
    ∧ (generate_audio_for_segment defaultNarrator "audio_output" 0 zeroStats
        50 60 [] 0 ttsOkSend).2.1.tokens_by_model "speech-02-hd" = 0
    ∧ (generate_audio_for_segment defaultNarrator "audio_output" 0 zeroStats
        50 60 [] 0 ttsOkSend).2.1.estimated_cost = 0 := by
  refine ⟨by decide, rfl, rfl, rfl, rfl⟩

/-- Claim C8 (amended): per-segment synthesis goes through the rate limiter
and the retry-once discipline, but not through the usage tracker: for every
segment, ledger state and response, `generate_audio_for_segment` returns
the usage ledger unchanged (no call-counter increment, no character-count
accumulation, no cost added); only `make_api_call` (the generation path)
updates the ledger. -/
theorem C8_usage_amended (ch : Character) (output_dir : String)
    (timestamp : ℕ) (stats : UsageStats) (limit : ℕ) (retryDelay : ℚ)
    (rl : List ℚ) (now : ℚ) (send : ℕ → TtsResponse) :
    (generate_audio_for_segment ch output_dir timestamp stats limit retryDelay
        rl now send).2.1 = stats
    ∧ (generate_audio_for_segment ch output_dir timestamp stats limit
        retryDelay rl now send).2.1.estimated_cost = stats.estimated_cost :=
  ⟨rfl, rfl⟩

/-- Helper: a filter that drops at least one element is strictly
shorter. -/
theorem length_filter_lt {α : Type} (p : α → Bool) :
    ∀ (l : List α) (a : α), a ∈ l → p a = false →
      (l.filter p).length < l.length := by
  intro l
  induction l with
  | nil => intro a ha _; cases ha
  | cons b t ih =>
    intro a ha hpa
    rcases List.mem_cons.mp ha with hab | hat
    · rw [List.filter_cons_of_neg (by simp [hab ▸ hpa])]
      exact Nat.lt_succ_of_le (List.length_filter_le _ _)
    · cases hpb : p b
      · rw [List.filter_cons_of_neg (by simp [hpb])]
        exact Nat.lt_succ_of_le (List.length_filter_le _ _)
      · rw [List.filter_cons_of_pos (by simp [hpb])]
        simpa using ih a hat hpa

/-- Helper: the over-limit sleep never moves the clock backwards. -/
theorem rl_now2_ge (limit : ℕ) (times : List ℚ) (now : ℚ) :
    now ≤ rl_now2 limit times now := by
  simp only [rl_now2]
  split_ifs with h1 h2
  · linarith
  · exact le_refl now
  · exact le_refl now

/-- Helper: the spacing sleep never moves the clock backwards. -/
theorem rl_now2_le_ret (limit : ℕ) (times : List ℚ) (now : ℚ) :
    rl_now2 limit times now ≤ rl_ret limit times now := by
  simp only [rl_ret]
  split_ifs with h1 h2
  · linarith
  · exact le_refl _
  · exact le_refl _

/-- Helper: when the pruned window is nonempty, the call returns at least
`min_interval` after the previous surviving recorded timestamp. -/
theorem rl_ret_spacing (limit : ℕ) (times : List ℚ) (now : ℚ)
    (h : rl_pruned times now ≠ []) :
    ((rl_pruned times now).getLast?).getD 0 + rl_min_interval limit
      ≤ rl_ret limit times now := by
  have hlen : 0 < (rl_pruned times now).length := List.length_pos.mpr h
  simp only [rl_ret]
  rw [if_pos (by simp only [List.length_append, List.length_singleton]; omega)]
  split_ifs with h2
  · exact le_refl _
  · linarith [not_lt.mp h2]

/-- Helper: when the ceiling check fires, the post-sleep clock is at least
61 seconds past some recorded timestamp of the pruned window. -/
theorem rl_now2_full (limit : ℕ) (times : List ℚ) (now : ℚ)
    (hl : 1 ≤ limit) (hfire : limit ≤ (rl_pruned times now).length) :
    ∃ o ∈ rl_pruned times now, o + 61 ≤ rl_now2 limit times now := by
  have hne : rl_pruned times now ≠ [] := by
    intro he
    rw [he] at hfire
    simp at hfire
    omega
  cases hm : (rl_pruned times now).min? with
  | none => exact absurd (List.min?_eq_none_iff.mp hm) hne
  | some m =>
    have hmem : m ∈ rl_pruned times now :=
      List.min?_mem (fun a b => min_choice a b) hm
    refine ⟨m, hmem, ?_⟩
    simp only [rl_now2]
    rw [if_pos hfire, hm]
    simp only [Option.getD_some]
    split_ifs with h2
    · linarith
    · push_neg at h2
      linarith

/-- Helper: one `wait_if_needed` call preserves the window invariant,
provided the call happens no earlier than the previous call returned. -/
theorem wait_if_needed_inv (limit : ℕ) (hl : 1 ≤ limit) (times : List ℚ)
    (now d : ℚ) (hd : 0 ≤ d) (h : RLInv limit times now) :
    RLInv limit (wait_if_needed limit times (now + d)).1
      (wait_if_needed limit times (now + d)).2 := by
  obtain ⟨hlen, hle, hfull⟩ := h
  have hnow'ge : now ≤ now + d := by linarith
  have hplen : (rl_pruned times (now + d)).length ≤ limit := by
    rcases Nat.lt_or_ge times.length (limit + 1) with hlt | hge
    · calc (rl_pruned times (now + d)).length
          ≤ times.length := List.length_filter_le _ _
        _ ≤ limit := Nat.lt_succ_iff.mp hlt
    · obtain ⟨o, ho, holde⟩ := hfull (le_antisymm hlen hge)
      have hlt : (rl_pruned times (now + d)).length < times.length := by
        apply length_filter_lt _ times o ho
        simp only [decide_eq_false_iff_not, not_lt]
        linarith
      omega
  have hmemle : ∀ t ∈ rl_pruned times (now + d), t ≤ now + d := by
    intro t ht
    exact le_trans (hle t (List.mem_of_mem_filter ht)) hnow'ge
  have hn2ge : now + d ≤ rl_now2 limit times (now + d) :=
    rl_now2_ge limit times (now + d)
  have hret : rl_now2 limit times (now + d) ≤ rl_ret limit times (now + d) :=
    rl_now2_le_ret limit times (now + d)
  refine ⟨?_, ?_, ?_⟩
  · simp only [wait_if_needed, List.length_append, List.length_singleton]
    omega
  · intro t ht
    simp only [wait_if_needed] at ht
    rcases List.mem_append.mp ht with hmem | hmem
    · exact le_trans (le_trans (hmemle t hmem) hn2ge) hret
    · rw [List.mem_singleton.mp hmem]
      exact hret
  · intro hfull2
    simp only [wait_if_needed, List.length_append, List.length_singleton] at hfull2
    have hfire : limit ≤ (rl_pruned times (now + d)).length := by omega
    obtain ⟨o, ho, h61⟩ := rl_now2_full limit times (now + d) hl hfire
    refine ⟨o, ?_, ?_⟩
    · simp only [wait_if_needed]
      exact List.mem_append.mpr (Or.inl ho)
    · rw [show (wait_if_needed limit times (now + d)).2
          = rl_ret limit times (now + d) from rfl]
      linarith

/-- Helper: the window invariant holds along any well-formed call trace. -/
theorem runRL_inv (limit : ℕ) (hl : 1 ≤ limit) (ds : List ℚ) :
    ∀ (times : List ℚ) (now : ℚ), (∀ x ∈ ds, 0 ≤ x) → RLInv limit times now →
      RLInv limit (runRL limit ds times now).1 (runRL limit ds times now).2 := by
  induction ds with
  | nil => intro times now _ h; exact h
  | cons d ds ih =>
    intro times now hd h
    simp only [runRL]
    exact ih _ _ (fun x hx => hd x (List.mem_cons_of_mem d hx))
      (wait_if_needed_inv limit hl times now d (hd d (List.mem_cons_self d ds)) h)

/-- Helper: `lst[-2]` of a list with one element appended is the last
element of the original list. -/
theorem secondLast_append (l : List ℚ) (a : ℚ) :
    secondLast (l ++ [a]) = l.getLast? := by
  simp [secondLast, List.reverse_append]

/-- Helper: the two guarantees that really hold after a `wait_if_needed`
call on a reachable state. -/
theorem wait_if_needed_post (limit : ℕ) (hl : 1 ≤ limit) (times : List ℚ)
    (now d : ℚ) (hd : 0 ≤ d) (h : RLInv limit times now) :
    (wait_if_needed limit times (now + d)).1.length ≤ limit + 1
    ∧ ∀ p, secondLast (wait_if_needed limit times (now + d)).1 = some p →
        p + rl_min_interval limit ≤ (wait_if_needed limit times (now + d)).2 := by
  refine ⟨(wait_if_needed_inv limit hl times now d hd h).1, ?_⟩
  intro p hp
  simp only [wait_if_needed, secondLast_append] at hp
  have hne : rl_pruned times (now + d) ≠ [] := by
    intro he
    rw [he] at hp
    cases hp
  have := rl_ret_spacing limit times (now + d) hne
  rw [hp] at this
  exact this

/-- Claim C5 (corrected): the claimed invariant fails on the code.  With
limit 1, two back-to-back acquires leave 2 timestamps in the window list
(the over-limit branch appends without re-pruning the stale entry); with
limit 2 (min interval 30s), two acquires one second apart leave the window
`[0, 1]` whose two most recent recorded timestamps are only 1 second apart
— the spacing sleep runs only after the new timestamp was recorded. -/
theorem C5_counterexample :
    (runRL 1 [0, 1] [] 0).1.length = 2
    ∧ ¬ (runRL 1 [0, 1] [] 0).1.length ≤ 1
    ∧ (runRL 2 [0, 1] [] 0).1 = [0, 1]
    ∧ secondLast (runRL 2 [0, 1] [] 0).1 = some 0
    ∧ (runRL 2 [0, 1] [] 0).1.getLast? = some 1
    ∧ ¬ rl_min_interval 2 ≤ (1 : ℚ) - 0 := by
  norm_num [runRL, wait_if_needed, rl_pruned, rl_now2, rl_ret,
    rl_min_interval, secondLast]

/-- Claim C5 (amended): after any `wait_if_needed` call of a well-formed
trace (calls from a fresh limiter, each made no earlier than the previous
call returned, ceiling at least 1), the window holds at most `limit + 1`
timestamps (one stale entry may outlive the prune), and the call returns
at a time at least `60/limit` seconds after the previous surviving
recorded timestamp — although the recorded timestamps themselves may be
closer together than `60/limit`. -/
theorem C5_window_amended (limit : ℕ) (hl : 1 ≤ limit) (ds : List ℚ)
    (hd : ∀ x ∈ ds, 0 ≤ x) (d : ℚ) (hd0 : 0 ≤ d) :
    (wait_if_needed limit (runRL limit ds [] 0).1
        ((runRL limit ds [] 0).2 + d)).1.length ≤ limit + 1
    ∧ ∀ p, secondLast (wait_if_needed limit (runRL limit ds [] 0).1
        ((runRL limit ds [] 0).2 + d)).1 = some p →
        p + rl_min_interval limit
          ≤ (wait_if_needed limit (runRL limit ds [] 0).1
              ((runRL limit ds [] 0).2 + d)).2 := by
  have hinit : RLInv limit [] 0 := by
    refine ⟨by simp, by simp, ?_⟩
    intro hcon
    simp only [List.length_nil] at hcon
    omega
  exact wait_if_needed_post limit hl _ _ d hd0 (runRL_inv limit hl ds [] 0 hd hinit)

/-- Witness for C5 (amended): with limit 2 and a second acquire one second
after the first returns, the window has at most 3 entries and the second
acquire returns at least `60/2 = 30` seconds after the first recorded
timestamp 0 (it returns at time 30). -/
theorem C5_window_amended_witness :
    (wait_if_needed 2 (runRL 2 [0] [] 0).1
        ((runRL 2 [0] [] 0).2 + 1)).1.length ≤ 2 + 1
    ∧ (0 : ℚ) + rl_min_interval 2
        ≤ (wait_if_needed 2 (runRL 2 [0] [] 0).1 ((runRL 2 [0] [] 0).2 + 1)).2 := by
  have h := C5_window_amended 2 (by norm_num) [0] (by norm_num) 1 (by norm_num)
  refine ⟨h.1, h.2 0 ?_⟩
  norm_num [runRL, wait_if_needed, rl_pruned, rl_now2, rl_ret, secondLast]
